import Mathlib

/-!
Shallow embedding of the `three_camera_gizmo` repository's core logic
(`src/utils.ts` and its evolved variant), together with theorems settling
the specification's claims about it.

Modelling conventions:
* three.js `Vector3` becomes `Vec3` over `ℝ`; `Math.cos`/`Math.sin` become
  `Real.cos`/`Real.sin` (exact real arithmetic in place of floating point).
* A `PerspectiveCamera` is modelled by the two attributes the core mutates:
  its `position` and the target of its last `lookAt` call.
* A JavaScript function that mutates a camera and may `throw` becomes a
  function returning the mutated camera paired with an optional error; the
  mutations performed before a `throw` persist in the returned camera,
  mirroring the fact that a thrown exception does not roll back mutations
  on the shared camera object.
* The debounce timer machinery is modelled by an explicit single pending
  timer (`Option`), processed over a time-stamped list of invocations.
* The DOM side of setup/teardown is modelled by a `World` recording which
  gizmo container nodes are attached, and how many listeners and pickable
  cubes have been created.
-/

namespace ThreeCameraGizmo

/-- A three.js `Vector3`, over exact reals. -/
structure Vec3 where
  x : ℝ
  y : ℝ
  z : ℝ

/-- The attributes of a `PerspectiveCamera` that the gizmo core reads and
mutates: its mutable position, and the point passed to its last `lookAt`
call (standing for its orientation). -/
structure Camera where
  pos : Vec3
  lookTarget : Vec3

/-- `COMMANDS` enum from `utils.ts`: the six view commands. -/
inductive COMMANDS where
  | CHANGE_VIEW_TO_TOP
  | CHANGE_VIEW_TO_BOTTOM
  | CHANGE_VIEW_TO_LEFT
  | CHANGE_VIEW_TO_RIGHT
  | CHANGE_VIEW_TO_FRONT
  | CHANGE_VIEW_TO_BACK
deriving DecidableEq, Repr

/-- `Axes` enum from `utils.ts`. -/
inductive Axes where
  | X
  | Y
  | Z
deriving DecidableEq, Repr

/-- The two error kinds the module can raise. -/
inductive GizmoError where
  | NoParentNode
  | UnsupportedAxis
deriving DecidableEq, Repr

/-- `CAMERA_DISTANCE` module constant from `utils.ts`. -/
def CAMERA_DISTANCE : ℝ := 6

/-- `CAMERA_FOCUS_POINT` module constant from `utils.ts`: the origin. -/
def CAMERA_FOCUS_POINT : Vec3 := ⟨0, 0, 0⟩

/-- `rotateCamera(camera, angle, axis = Axes.Y)` from `utils.ts`:
first sets `camera.position.y = 0`, then binds the locals
`z = CAMERA_DISTANCE, y = 0, x = 0`, then switches on the axis, placing the
camera on the circle of radius `CAMERA_DISTANCE` (axis `X` or `Y`) or
throwing (axis `Z`), and finally calls `camera.lookAt(CAMERA_FOCUS_POINT)`
on the non-throwing paths.  The returned camera carries the mutations
performed up to the point of return or throw. -/
noncomputable def rotateCamera (camera : Camera) (angle : ℝ)
    (axis : Axes := Axes.Y) : Camera × Option GizmoError :=
  let camera := { camera with pos := { camera.pos with y := 0 } }
  let z : ℝ := CAMERA_DISTANCE
  let y : ℝ := 0
  let x : ℝ := 0
  match axis with
  | Axes.X =>
      let camera := { camera with pos := { camera.pos with
        y := y * Real.cos angle + z * Real.sin angle,
        z := z * Real.cos angle - y * Real.sin angle } }
      ({ camera with lookTarget := CAMERA_FOCUS_POINT }, none)
  | Axes.Y =>
      let camera := { camera with pos := { camera.pos with
        x := x * Real.cos angle + z * Real.sin angle,
        z := z * Real.cos angle - x * Real.sin angle } }
      ({ camera with lookTarget := CAMERA_FOCUS_POINT }, none)
  | Axes.Z => (camera, some GizmoError.UnsupportedAxis)

/-- Sequencing of two camera mutations where the second runs only if the
first did not throw (JavaScript statement sequencing). -/
noncomputable def andThenRotate (r : Camera × Option GizmoError) (angle : ℝ)
    (axis : Axes) : Camera × Option GizmoError :=
  match r with
  | (cam, none) => rotateCamera cam angle axis
  | (cam, some e) => (cam, some e)

/-- The body of `gizmoAction` from `utils.ts` (the function wrapped in
`debounce(100, ...)`): the `switch` on the command, issuing the
corresponding `rotateCamera` calls in source order. -/
noncomputable def gizmoActionBody (camera : Camera) (command : COMMANDS) :
    Camera × Option GizmoError :=
  match command with
  | COMMANDS.CHANGE_VIEW_TO_TOP =>
      andThenRotate (rotateCamera camera 0 Axes.Y) (Real.pi / 2) Axes.X
  | COMMANDS.CHANGE_VIEW_TO_BOTTOM =>
      andThenRotate (rotateCamera camera 0 Axes.Y) (-(Real.pi / 2)) Axes.X
  | COMMANDS.CHANGE_VIEW_TO_RIGHT =>
      rotateCamera camera (Real.pi / 2) Axes.Y
  | COMMANDS.CHANGE_VIEW_TO_LEFT =>
      rotateCamera camera (-(Real.pi / 2)) Axes.Y
  | COMMANDS.CHANGE_VIEW_TO_FRONT =>
      rotateCamera camera 0 Axes.Y
  | COMMANDS.CHANGE_VIEW_TO_BACK =>
      rotateCamera camera Real.pi Axes.Y

/-- The rotation-call sequence `resolveView` is specified to issue for each
view command.  This definition is transcribed from the SPECIFICATION's
words (section 4.2), to be compared with the source-derived
`gizmoActionBody`. -/
noncomputable def resolveViewSpec : COMMANDS → List (ℝ × Axes)
  | COMMANDS.CHANGE_VIEW_TO_FRONT => [(0, Axes.Y)]
  | COMMANDS.CHANGE_VIEW_TO_BACK => [(Real.pi, Axes.Y)]
  | COMMANDS.CHANGE_VIEW_TO_RIGHT => [(Real.pi / 2, Axes.Y)]
  | COMMANDS.CHANGE_VIEW_TO_LEFT => [(-(Real.pi / 2), Axes.Y)]
  | COMMANDS.CHANGE_VIEW_TO_TOP => [(0, Axes.Y), (Real.pi / 2, Axes.X)]
  | COMMANDS.CHANGE_VIEW_TO_BOTTOM => [(0, Axes.Y), (-(Real.pi / 2), Axes.X)]

/-- Apply a list of `rotateCamera` calls in order, stopping at the first
thrown error (exception propagation). -/
noncomputable def rotSeq (camera : Camera) :
    List (ℝ × Axes) → Camera × Option GizmoError
  | [] => (camera, none)
  | (angle, axis) :: rest =>
      match rotateCamera camera angle axis with
      | (cam, none) => rotSeq cam rest
      | (cam, some e) => (cam, some e)

/-- Euclidean distance between two `Vec3`s. -/
noncomputable def dist3 (p q : Vec3) : ℝ :=
  Real.sqrt ((p.x - q.x) ^ 2 + (p.y - q.y) ^ 2 + (p.z - q.z) ^ 2)

/-- The camera pose each view command ends at: the corresponding axis point
of the radius-`CAMERA_DISTANCE` sphere, looking at the origin.  Helper for
the pose computations below. -/
def commandPose : COMMANDS → Vec3
  | COMMANDS.CHANGE_VIEW_TO_FRONT => ⟨0, 0, 6⟩
  | COMMANDS.CHANGE_VIEW_TO_BACK => ⟨0, 0, -6⟩
  | COMMANDS.CHANGE_VIEW_TO_RIGHT => ⟨6, 0, 0⟩
  | COMMANDS.CHANGE_VIEW_TO_LEFT => ⟨-6, 0, 0⟩
  | COMMANDS.CHANGE_VIEW_TO_TOP => ⟨0, 6, 0⟩
  | COMMANDS.CHANGE_VIEW_TO_BOTTOM => ⟨0, -6, 0⟩

/-- Evaluation of `gizmoActionBody`: from any starting camera, each command
ends at its fixed `commandPose`, looking at the focus point, with no error.
Shared helper for the distance and reset theorems. -/
theorem gizmoActionBody_eq (camera : Camera) (command : COMMANDS) :
    gizmoActionBody camera command =
      ({ pos := commandPose command, lookTarget := ⟨0, 0, 0⟩ }, none) := by
  cases command <;>
    simp [gizmoActionBody, andThenRotate, rotateCamera, commandPose,
      CAMERA_DISTANCE, CAMERA_FOCUS_POINT, Real.cos_pi, Real.sin_pi,
      Real.cos_pi_div_two, Real.sin_pi_div_two]

/-- `Real.sqrt 36 = 6`; helper for distance computations. -/
theorem sqrt_thirty_six : Real.sqrt 36 = 6 := by
  rw [show (36 : ℝ) = 6 * 6 by norm_num]
  exact Real.sqrt_mul_self (by norm_num)

/-- C1: for every one of the six `COMMANDS` values, running the dispatched
action (`gizmoAction`'s body, i.e. `resolveView`) from any starting camera
leaves the camera position at exactly `CAMERA_DISTANCE` from the focus
point `CAMERA_FOCUS_POINT`, and leaves the camera looking at the focus
point (exact real arithmetic). -/
theorem view_commands_preserve_distance (command : COMMANDS) (camera : Camera) :
    dist3 (gizmoActionBody camera command).1.pos CAMERA_FOCUS_POINT =
      CAMERA_DISTANCE ∧
    (gizmoActionBody camera command).1.lookTarget = CAMERA_FOCUS_POINT := by
  rw [gizmoActionBody_eq]
  refine ⟨?_, rfl⟩
  cases command <;>
    · show Real.sqrt _ = _
      rw [CAMERA_DISTANCE, show CAMERA_FOCUS_POINT = ⟨0, 0, 0⟩ from rfl]
      rw [← sqrt_thirty_six]
      norm_num [commandPose]

/-- C2: `gizmoAction`'s body issues, for each of the six view commands,
exactly the `rotateCamera` call sequence the specification prescribes for
`resolveView`, in the specified order (refinement of the source `switch`
against the spec-transcribed call table `resolveViewSpec`). -/
theorem resolveView_matches_spec_calls (camera : Camera) (command : COMMANDS) :
    gizmoActionBody camera command = rotSeq camera (resolveViewSpec command) := by
  cases command <;> rfl

/-- C6: `rotateCamera` with axis `Z` fails with `UnsupportedAxis` for every
angle and every starting camera, and this error is unreachable through the
six-command mapping: `gizmoAction`'s body never errors, for any command. -/
theorem axis_z_unsupported_and_unreachable :
    (∀ (camera : Camera) (angle : ℝ),
      (rotateCamera camera angle Axes.Z).2 = some GizmoError.UnsupportedAxis) ∧
    (∀ (camera : Camera) (command : COMMANDS),
      (gizmoActionBody camera command).2 = none) := by
  refine ⟨fun camera angle => rfl, fun camera command => ?_⟩
  rw [gizmoActionBody_eq]

/-- C9: dispatching TOP from any starting camera yields exactly the final
camera that dispatching TOP from the FRONT pose yields, because the TOP
sequence begins with `rotateCamera(camera, 0)` around `Y`, which overwrites
the whole position before the X-tilt. -/
theorem top_resets_horizontal_state (camera : Camera) :
    gizmoActionBody camera COMMANDS.CHANGE_VIEW_TO_TOP =
      gizmoActionBody (gizmoActionBody camera COMMANDS.CHANGE_VIEW_TO_FRONT).1
        COMMANDS.CHANGE_VIEW_TO_TOP := rfl

/-- C10: `rotateCamera` with axis `Z` is not atomic: the returned camera has
its y-position already set to `0` (the mutation performed before the
`switch`), its x- and z-positions unchanged, and the `UnsupportedAxis`
error raised. -/
theorem axis_z_partial_mutation (camera : Camera) (angle : ℝ) :
    (rotateCamera camera angle Axes.Z).1.pos.x = camera.pos.x ∧
    (rotateCamera camera angle Axes.Z).1.pos.y = 0 ∧
    (rotateCamera camera angle Axes.Z).1.pos.z = camera.pos.z ∧
    (rotateCamera camera angle Axes.Z).2 = some GizmoError.UnsupportedAxis :=
  ⟨rfl, rfl, rfl, rfl⟩

/-- One invocation of a debounce-wrapped action: the (absolute) time at
which it occurs and the arguments it passes. -/
structure Invocation (α : Type) where
  time : ℕ
  args : α
deriving DecidableEq, Repr

/-- Execution model of `debounce(ms, fn)` from `utils.ts`.  The closure
variable `inDebounce` holds at most one pending timer, modelled as
`Option (fire time × captured arguments)`.  `debounceRun` processes a
time-ordered list of invocations of the wrapped function: between
invocations, a pending timer whose fire time has arrived fires (emitting an
execution of `fn`); each invocation first clears the pending timer
(`window.clearTimeout`) and then schedules `fn` with the current arguments
at `now + ms` (`window.setTimeout`).  After the last invocation the
remaining pending timer, if any, fires.  Returns the list of executions of
the underlying `fn`, as (time, arguments) pairs. -/
def debounceRun {α : Type} (ms : ℕ) (pending : Option (ℕ × α)) :
    List (Invocation α) → List (ℕ × α)
  | [] => pending.toList
  | inv :: rest =>
      (match pending with
        | some (ft, a) => if ft ≤ inv.time then [(ft, a)] else []
        | none => []) ++ debounceRun ms (some (inv.time + ms, inv.args)) rest

/-- Consecutive invocation gaps are all smaller than the quiet period:
each invocation happens before the previous one's timer can fire. -/
def gapsWithin {α : Type} (ms : ℕ) (invs : List (Invocation α)) : Prop :=
  List.Chain' (fun a b => b.time < a.time + ms) invs

/-- The last invocation of `i :: rest`, by structural recursion. -/
def lastOf {α : Type} (i : Invocation α) : List (Invocation α) → Invocation α
  | [] => i
  | j :: rest => lastOf j rest

/-- `lastOf` agrees with `List.getLast`. -/
theorem lastOf_eq_getLast {α : Type} :
    ∀ (rest : List (Invocation α)) (i : Invocation α),
      lastOf i rest = (i :: rest).getLast (List.cons_ne_nil i rest)
  | [], _ => rfl
  | j :: rest, i => by
      rw [lastOf, List.getLast_cons (List.cons_ne_nil j rest)]
      exact lastOf_eq_getLast rest j

/-- Helper: a run starting with a pending timer scheduled by a previous
invocation whose gap constraint covers the remaining invocations fires
exactly once, at the last invocation's time plus the quiet period. -/
theorem debounceRun_pending {α : Type} (ms : ℕ) :
    ∀ (invs : List (Invocation α)) (prev : Invocation α),
      gapsWithin ms (prev :: invs) →
      debounceRun ms (some (prev.time + ms, prev.args)) invs =
        [((lastOf prev invs).time + ms, (lastOf prev invs).args)] := by
  intro invs
  induction invs with
  | nil => intro prev _; rfl
  | cons i rest ih =>
      intro prev h
      rw [gapsWithin, List.chain'_cons] at h
      rw [debounceRun, if_neg (by omega), List.nil_append, ih i h.2]
      rfl

/-- C4: trailing-edge debounce.  For every nonempty sequence of invocations
of the `debounce(ms, fn)`-wrapped action in which every gap between
consecutive invocations is smaller than the quiet period `ms`, the
underlying `fn` executes exactly once, at the last invocation's time plus
the quiet period, with the arguments of the last invocation.  (That at most
one timer is pending at any time is structural in the model: the
`inDebounce` slot is a single `Option`.) -/
theorem debounce_burst_fires_once {α : Type} (ms : ℕ)
    (invs : List (Invocation α)) (hne : invs ≠ [])
    (hgap : gapsWithin ms invs) :
    debounceRun ms none invs =
      [((invs.getLast hne).time + ms, (invs.getLast hne).args)] := by
  cases invs with
  | nil => exact absurd rfl hne
  | cons i rest =>
      rw [debounceRun, List.nil_append, debounceRun_pending ms rest i hgap,
        lastOf_eq_getLast]

/-- Witness for C4: three invocations 0, 3, 5 with quiet period 10 produce
exactly one execution, at time 15, with the last invocation's argument 7. -/
theorem debounce_burst_fires_once_witness :
    debounceRun 10 (none : Option (ℕ × ℕ)) [⟨0, 1⟩, ⟨3, 2⟩, ⟨5, 7⟩] =
      [(15, 7)] :=
  debounce_burst_fires_once 10 [⟨0, 1⟩, ⟨3, 2⟩, ⟨5, 7⟩] (by decide)
    (by norm_num [gapsWithin, List.chain'_cons])

/-- The DOM- and scene-level artifacts the gizmo setup creates, as observed
by the host: which gizmo container nodes are attached under the scene
container's parent, how many input listeners are registered, and how many
pickable cubes have been added to the (private) gizmo scene. -/
structure World where
  nodes : List ℕ
  listeners : ℕ
  sceneCubes : ℕ
deriving DecidableEq, Repr

/-- `gizmoContainer.remove()`: detaches the node with the given id from the
DOM if attached; a no-op (not an error) otherwise. -/
def removeNode (gid : ℕ) (w : World) : World :=
  { w with nodes := w.nodes.filter (fun n => n ≠ gid) }

/-- `destroyCameraGizmo` as returned by setup: removes the gizmo viewport
container node (`gizmoContainer.remove()`), implicitly detaching its
listeners.  Total: never raises. -/
def destroyCameraGizmo (gid : ℕ) (w : World) : World := removeNode gid w

/-- `setupCameraGizmo`: after constructing purely local objects (raycaster,
mouse state) it reads `sceneContainer.parentNode`; if absent it throws
`NoParentNode` having performed no effect on the world; otherwise it
appends the gizmo container node `gid`, registers the six input listeners
(mousemove/down/up, touchmove/start/end), adds the six pickable cubes to
the private gizmo scene, and returns the manager (identified by the gizmo
container node it can destroy). -/
def setupCameraGizmo (hasParent : Bool) (gid : ℕ) (w : World) :
    World × Option ℕ × Option GizmoError :=
  if hasParent then
    ({ nodes := w.nodes ++ [gid], listeners := w.listeners + 6,
       sceneCubes := w.sceneCubes + 6 }, some gid, none)
  else
    (w, none, some GizmoError.NoParentNode)

/-- C7: when the scene container has no parent node, `setupCameraGizmo`
fails synchronously with `NoParentNode`, returns no gizmo manager, and
leaves the world exactly as it was: no DOM node attached, no listener
registered, no scene artifact created. -/
theorem setup_without_parent_fails_atomically (gid : ℕ) (w : World) :
    setupCameraGizmo false gid w = (w, none, some GizmoError.NoParentNode) :=
  rfl

/-- C8: teardown is idempotent.  `destroyCameraGizmo` never raises (it is a
total function), the gizmo viewport node is absent after the first call and
still absent after the second, and the second call is a no-op on the
world state. -/
theorem destroy_idempotent (gid : ℕ) (w : World) :
    gid ∉ (destroyCameraGizmo gid w).nodes ∧
    gid ∉ (destroyCameraGizmo gid (destroyCameraGizmo gid w)).nodes ∧
    destroyCameraGizmo gid (destroyCameraGizmo gid w) =
      destroyCameraGizmo gid w := by
  refine ⟨?_, ?_, ?_⟩ <;>
    simp [destroyCameraGizmo, removeNode, List.mem_filter,
      List.filter_filter]

/-- `Vector3.prototype.setLength(l)` from three.js: normalize the vector
and rescale it to length `l`, i.e. multiply by `l / |v|`. -/
noncomputable def setLength (l : ℝ) (v : Vec3) : Vec3 :=
  let n := Real.sqrt (v.x ^ 2 + v.y ^ 2 + v.z ^ 2)
  ⟨v.x * (l / n), v.y * (l / n), v.z * (l / n)⟩

/-- Observable outcome of one invocation of the per-frame render step
returned by `animateGizmo`. -/
structure FrameResult where
  /-- The gizmo camera as passed to `raycaster.setFromCamera`, i.e. the
  pose the pick ray of this frame is cast from. -/
  rayPose : Camera
  /-- The command `gizmoAction` is invoked with this frame, if any.  Being
  debounce-wrapped, the invocation only schedules the action; it does not
  mutate the scene camera within the step. -/
  dispatched : Option COMMANDS
  /-- The scene camera at the end of the step. -/
  sceneCamera : Camera
  /-- The gizmo camera at the end of the step. -/
  gizmoCamera : Camera

/-- The per-frame render step returned by `animateGizmo`, in source order:
(1) `raycaster.setFromCamera(mouse.coordinates, gizmoCamera)` — the pick
ray is cast from the gizmo camera's current pose; the resulting nearest
intersected face's command, if any, is supplied by the external raycaster
as `intersected`; (2) if a face is intersected and the mouse is down,
`gizmoAction` is invoked with that face's command; (3) only then is the
gizmo camera pose updated from the scene camera: position copied, rescaled
to `gizmoCameraDistance` via `setLength`, then `lookAt(focusPoint)`;
(4) the gizmo scene is drawn (no modelled effect). -/
noncomputable def animateGizmoStep (intersected : Option COMMANDS)
    (isDown : Bool) (sceneCamera gizmoCamera : Camera)
    (gizmoCameraDistance : ℝ) (focusPoint : Vec3) : FrameResult :=
  let rayPose := gizmoCamera
  let dispatched := if intersected.isSome && isDown then intersected else none
  let gizmoCamera : Camera :=
    { pos := setLength gizmoCameraDistance sceneCamera.pos,
      lookTarget := focusPoint }
  { rayPose := rayPose, dispatched := dispatched,
    sceneCamera := sceneCamera, gizmoCamera := gizmoCamera }

/-- C3: in every per-frame render step in which the pointer is not
activated (`mouse.isDown = false`), no command is dispatched — regardless
of whether the pick ray intersects a face — and the scene camera is left
unchanged by the step. -/
theorem idle_pointer_no_dispatch (intersected : Option COMMANDS)
    (sceneCamera gizmoCamera : Camera) (gizmoCameraDistance : ℝ)
    (focusPoint : Vec3) :
    (animateGizmoStep intersected false sceneCamera gizmoCamera
        gizmoCameraDistance focusPoint).dispatched = none ∧
    (animateGizmoStep intersected false sceneCamera gizmoCamera
        gizmoCameraDistance focusPoint).sceneCamera = sceneCamera := by
  refine ⟨?_, rfl⟩
  simp [animateGizmoStep]

/-- Counterexample to C5 as stated: with the scene camera at `(6, 0, 0)`,
a gizmo camera still at `(0, 0, 5)` from the previous frame, and gizmo
distance `5`, the pose the pick ray is cast from is NOT the pose derived
from this frame's primary camera (which the step only installs afterwards,
as its output `gizmoCamera`). -/
theorem raycast_uses_stale_pose_cex :
    (animateGizmoStep none false ⟨⟨6, 0, 0⟩, ⟨0, 0, 0⟩⟩ ⟨⟨0, 0, 5⟩, ⟨0, 0, 0⟩⟩
        5 ⟨0, 0, 0⟩).rayPose ≠
    (animateGizmoStep none false ⟨⟨6, 0, 0⟩, ⟨0, 0, 0⟩⟩ ⟨⟨0, 0, 5⟩, ⟨0, 0, 0⟩⟩
        5 ⟨0, 0, 0⟩).gizmoCamera := by
  intro h
  have hz := congrArg (fun c => c.pos.z) h
  simp [animateGizmoStep, setLength] at hz

/-- C5 amended: within each invocation of the per-frame render step, the
pick ray is cast from the gizmo camera pose as it stands at entry to the
step (the pose derived from the primary camera in the PREVIOUS frame), and
only afterwards is the gizmo camera pose updated from the current primary
camera (position copied, rescaled to the fixed gizmo distance, looking at
the focus point) — the pose the NEXT frame's ray cast will use. -/
theorem raycast_pose_precedes_update (intersected : Option COMMANDS)
    (isDown : Bool) (sceneCamera gizmoCamera : Camera)
    (gizmoCameraDistance : ℝ) (focusPoint : Vec3) :
    (animateGizmoStep intersected isDown sceneCamera gizmoCamera
        gizmoCameraDistance focusPoint).rayPose = gizmoCamera ∧
    (animateGizmoStep intersected isDown sceneCamera gizmoCamera
        gizmoCameraDistance focusPoint).gizmoCamera =
      { pos := setLength gizmoCameraDistance sceneCamera.pos,
        lookTarget := focusPoint } :=
  ⟨rfl, rfl⟩

end ThreeCameraGizmo
